import Mathlib

/-!
Verification development for the Monitoring-project repository
(device-management, monitoring, backend services).

The definitions below are a shallow embedding of the Python source:

* `Py.*`                 — Python dict / JSON value semantics used by the pipeline
  (dict assignment, `.get`, `.pop`, `.update`, `in`, truthiness).
* `DeviceStatus`, `transitionOp`
                         — device lifecycle state machine
  (enum from `src/device-management/entities/device.py`; the transition
  operation itself lives in `controllers/device_controller.py`, which is
  imported by `main.py` but absent from the sources, so it is modelled
  from the specification, §4.1).
* `SocketIOService.*`    — `src/monitoring/services/socketio_service.py`
  (`asyncio.Queue` broadcast queue with CPython queue semantics).
* `RabbitMQConsumer.*`   — `src/monitoring/services/rabbitmq_consumer.py`
  (device-type enrichment, telemetry / device-event handlers as traces
  of observable actions).
* `EventsDAO.*` / `TelemetryDAO.*`
                         — `src/monitoring/dal/events_dao.py`,
  `src/monitoring/dal/telemetry_dao.py` (insert, filtered query with
  MongoDB find/sort/limit semantics, `delete_old_data` date arithmetic
  with Python `datetime.replace` semantics).
* `RabbitMQPublisher.*`  — `src/device-management/services/rabbitmq_publisher.py`
  (lazy connection property, exchange declaration, `publish_event`).
* `CacheService.*`       — `src/device-management/services/cache_service.py`
  (lazy Redis client, error-swallowing cache operations).

External effects (network, broker, Mongo, Redis) are passed in as
explicit world / outcome parameters; exceptions are modelled with
`Except`, and the code's `try/except` blocks by matching on the result.
-/

namespace Py

/-- A primitive JSON/Python value (the payloads the modelled code paths
inspect are at most one dict deep: the telemetry `data` sub-dict holds
plain metric values). -/
inductive Prim where
  | int : Int → Prim
  | str : String → Prim
  | bool : Bool → Prim
  | none : Prim
deriving DecidableEq

/-- A Python/JSON value: a primitive, or a flat dict of primitives
(the `data` field of a telemetry event). -/
inductive Val where
  | prim : Prim → Val
  | dict : List (String × Prim) → Val
deriving DecidableEq

/-- A Python dict with string keys (JSON object).  Keys are unique in
Python; the operations below preserve that invariant. -/
abbrev Dict := List (String × Val)

/-- `d.get(key)` / `d[key]` lookup. -/
def dget : Dict → String → Option Val
  | [], _ => Option.none
  | (k, v) :: rest, key => if k = key then some v else dget rest key

/-- `d[key] = value`: overwrite in place if the key is present, else append. -/
def dset : Dict → String → Val → Dict
  | [], key, value => [(key, value)]
  | (k, v) :: rest, key, value =>
      if k = key then (k, value) :: rest else (k, v) :: dset rest key value

/-- `d.pop(key)`: remove the binding for `key`. -/
def dpop (d : Dict) (key : String) : Dict :=
  d.filter (fun kv => kv.1 ≠ key)

/-- `d.update(other)`: set every binding of `other` in `d`. -/
def dupdate (d other : Dict) : Dict :=
  other.foldl (fun acc kv => dset acc kv.1 kv.2) d

/-- `key in d`. -/
def dcontains (d : Dict) (key : String) : Bool :=
  (dget d key).isSome

/-- Python truthiness of a primitive (`0`, `""`, `False`, `None` are falsy). -/
def Prim.truthy : Prim → Bool
  | .int n => n ≠ 0
  | .str s => s ≠ ""
  | .bool b => b
  | .none => false

/-- Python truthiness of a value (an empty dict is falsy). -/
def Val.truthy : Val → Bool
  | .prim p => p.truthy
  | .dict d => !d.isEmpty

end Py

/-- Device status enum from `entities/device.py` (`DeviceStatus`). -/
inductive DeviceStatus where
  | in_stock
  | reserved
  | deployed
  | maintenance
  | retired
deriving DecidableEq

/-- The five statuses, in declaration order. -/
def DeviceStatus.all : List DeviceStatus :=
  [.in_stock, .reserved, .deployed, .maintenance, .retired]

/-- Modelled from the spec: the state-machine table of §4.1 (the
Lifecycle Manager `controllers/device_controller.py` is imported by
`device-management/main.py` but is missing from the sources).
IN_STOCK → {RESERVED, DEPLOYED, RETIRED}; RESERVED → {IN_STOCK,
DEPLOYED, RETIRED}; DEPLOYED → {MAINTENANCE, IN_STOCK, RETIRED};
MAINTENANCE → {IN_STOCK, DEPLOYED, RETIRED}; RETIRED → ∅ (terminal). -/
def allowedTransition : DeviceStatus → DeviceStatus → Bool
  | .in_stock, .reserved => true
  | .in_stock, .deployed => true
  | .in_stock, .retired => true
  | .reserved, .in_stock => true
  | .reserved, .deployed => true
  | .reserved, .retired => true
  | .deployed, .maintenance => true
  | .deployed, .in_stock => true
  | .deployed, .retired => true
  | .maintenance, .in_stock => true
  | .maintenance, .deployed => true
  | .maintenance, .retired => true
  | _, _ => false

/-- Errors of the transition operation (spec §7 taxonomy). -/
inductive TransitionError where
  | invalidTransition
  | notFound
deriving DecidableEq

/-- A device row as far as the state machine is concerned
(`t_devices`: numeric id, status, location). -/
structure Device where
  id : Int
  status : DeviceStatus
  location : Option String
deriving DecidableEq

/-- Modelled from the spec: `transition(deviceId, targetStatus, location?)`
of §4.1 (the Lifecycle Manager source is missing from `src/`).  Fails
with `NotFound` for an unknown id, with `InvalidTransition` when the
(current, target) pair is not in the table; on success writes the new
status (and location, when supplied) to the store.  Returns the
operation result together with the resulting store, which is unchanged
on failure. -/
def transitionOp (store : List Device) (deviceId : Int) (target : DeviceStatus)
    (location : Option String) : Except TransitionError Unit × List Device :=
  match store.find? (fun d => d.id = deviceId) with
  | Option.none => (.error .notFound, store)
  | some d =>
      if allowedTransition d.status target then
        (.ok (),
         store.map (fun e =>
           if e.id = deviceId then
             { e with status := target,
                      location := location.elim e.location some }
           else e))
      else (.error .invalidTransition, store)

namespace SocketIOService

/-- A queued broadcast: event name and payload
(`socketio_service.py`, `queue_broadcast`). -/
structure BEvent where
  event : String
  data : Py.Dict
deriving DecidableEq

/-- The `maxsize` of the broadcast queue: `asyncio.Queue()` is created
with no argument in `SocketIOService.__init__`, so CPython's default
`maxsize=0` applies. -/
def broadcastQueueMaxsize : Nat := 0

/-- CPython `asyncio.Queue.full()`: `False` when `maxsize <= 0`, else
`qsize() >= maxsize`. -/
def queueFull (maxsize : Nat) (q : List BEvent) : Bool :=
  decide (0 < maxsize) && decide (maxsize ≤ q.length)

/-- CPython `asyncio.Queue.put_nowait(item)`: raises `QueueFull` when
the queue is full, else appends the item. -/
def put_nowait (maxsize : Nat) (q : List BEvent) (item : BEvent) :
    Except Unit (List BEvent) :=
  if queueFull maxsize q then .error () else .ok (q ++ [item])

/-- `SocketIOService.queue_broadcast(event, data)`: `put_nowait` on the
broadcast queue inside `try/except`; any exception is logged and
swallowed, leaving the queue as it was. -/
def queue_broadcast (q : List BEvent) (event : String) (data : Py.Dict) :
    List BEvent :=
  match put_nowait broadcastQueueMaxsize q ⟨event, data⟩ with
  | .ok q' => q'
  | .error _ => q

/-- The broadcast queue after `n` consecutive `queue_broadcast` calls
with no intervening drain (a stalled dispatch loop). -/
def queueAfter : Nat → List BEvent
  | 0 => []
  | n + 1 => queue_broadcast (queueAfter n) "telemetry" []

end SocketIOService

namespace EventsDAO

/-- `EventsDAO.insert(data)` (`events_dao.py`): add `timestamp` if not
present, then `insert_one`.  The value returned here is the document as
stored; `now` is `datetime.utcnow().isoformat()`. -/
def insertDoc (now : String) (data : Py.Dict) : Py.Dict :=
  if Py.dcontains data "timestamp" then data
  else Py.dset data "timestamp" (.prim (.str now))

end EventsDAO

namespace TelemetryDAO

/-- `TelemetryDAO.insert(data)` (`telemetry_dao.py`): add `timestamp`
if not present, then `insert_one`. -/
def insertDoc (now : String) (data : Py.Dict) : Py.Dict :=
  if Py.dcontains data "timestamp" then data
  else Py.dset data "timestamp" (.prim (.str now))

end TelemetryDAO

namespace RabbitMQConsumer

/-- Outcome of the `requests.get(.../devices/{id}/type, timeout=5)` call
in `_get_device_type`: an HTTP response with a status code and JSON
body, or a raised exception (connection error, the 5-second timeout,
malformed JSON body, ...). -/
inductive LookupOutcome where
  | response : Nat → Py.Dict → LookupOutcome
  | raised : LookupOutcome
deriving DecidableEq

/-- The consumer's in-memory device-type memo `_device_type_cache`,
keyed by the `device_id` value. -/
abbrev TypeCache := List (Py.Val × Py.Val)

/-- Lookup in the memo (Python dict `device_id in _device_type_cache`). -/
def cacheGet : TypeCache → Py.Val → Option Py.Val
  | [], _ => Option.none
  | (k, v) :: rest, key => if k = key then some v else cacheGet rest key

/-- Store in the memo (`_device_type_cache[device_id] = device_type`). -/
def cachePut : TypeCache → Py.Val → Py.Val → TypeCache
  | [], key, value => [(key, value)]
  | (k, v) :: rest, key, value =>
      if k = key then (k, value) :: rest else (k, v) :: cachePut rest key value

/-- `RabbitMQConsumer._get_device_type(device_id)`: consult the memo;
on a miss perform the bounded (`timeout=5`) registry lookup.  On a 200
response take `device_data.get('type', 'other')` and memoize it; on any
other status, or on any exception, return `'other'` without memoizing. -/
def get_device_type (cache : TypeCache) (device_id : Py.Val)
    (outcome : LookupOutcome) : Py.Val × TypeCache :=
  match cacheGet cache device_id with
  | some t => (t, cache)
  | Option.none =>
      match outcome with
      | .response status body =>
          if status = 200 then
            let t := (Py.dget body "type").getD (.prim (.str "other"))
            (t, cachePut cache device_id t)
          else (.prim (.str "other"), cache)
      | .raised => (.prim (.str "other"), cache)

/-- A message as delivered to a handler: `json.loads(body)` either
raises (malformed) or yields a JSON object. -/
inductive ConsumedMsg where
  | malformed : ConsumedMsg
  | payload : Py.Dict → ConsumedMsg
deriving DecidableEq

/-- Observable actions of a message handler, in order: a persistence
attempt against the Event Store (with the stored document and whether
the insert succeeded), a Socket.IO broadcast hand-off, an error log,
and the broker `basic_ack`. -/
inductive Action where
  | persist : Py.Dict → Bool → Action
  | broadcast : String → Py.Dict → Action
  | logError : Action
  | ack : Action
deriving DecidableEq

/-- The `data`-flattening step of `_on_telemetry`: if `payload["data"]`
exists and is a dict, pop it and merge its entries into the payload. -/
def flattenData (p : Py.Dict) : Py.Dict :=
  match Py.dget p "data" with
  | some (.dict entries) =>
      Py.dupdate (Py.dpop p "data") (entries.map (fun kv => (kv.1, Py.Val.prim kv.2)))
  | _ => p

/-- The device-type enrichment step of `_on_telemetry`: look up
`payload.get('device_id')`; when truthy, resolve the type and set
`payload['device_type']`. -/
def enrich (p : Py.Dict) (cache : TypeCache) (outcome : LookupOutcome) :
    Py.Dict × TypeCache :=
  match Py.dget p "device_id" with
  | some v =>
      if v.truthy then
        let r := get_device_type cache v outcome
        (Py.dset p "device_type" r.1, r.2)
      else (p, cache)
  | Option.none => (p, cache)

/-- `RabbitMQConsumer._on_telemetry(channel, method, properties, body)`:
inside `try`: decode, default the timestamp, flatten `data`, enrich
with the device type, `TelemetryDAO.insert`, then emit via the
Socket.IO callback when one is set; any exception is caught and
logged; `finally`: `basic_ack`.  `now` is `datetime.utcnow()`,
`persistOk` tells whether the Mongo insert raises, `cbSet` whether
`set_socketio_callback` was called.  Returns the handler's action
trace and the updated device-type memo. -/
def on_telemetry (msg : ConsumedMsg) (now : String) (cache : TypeCache)
    (outcome : LookupOutcome) (persistOk : Bool) (cbSet : Bool) :
    List Action × TypeCache :=
  match msg with
  | .malformed => ([.logError, .ack], cache)
  | .payload p0 =>
      let p1 := Py.dset p0 "timestamp" ((Py.dget p0 "timestamp").getD (.prim (.str now)))
      let p2 := flattenData p1
      let r := enrich p2 cache outcome
      let p3 := r.1
      if persistOk then
        let stored := TelemetryDAO.insertDoc now p3
        (([.persist stored true]
          ++ (if cbSet then [.broadcast "telemetry" p3] else [])
          ++ [.ack]), r.2)
      else
        ([.persist p3 false, .logError, .ack], r.2)

/-- `RabbitMQConsumer._on_device_event(channel, method, properties, body)`:
inside `try`: decode, default the timestamp, `EventsDAO.insert`, then
emit via the Socket.IO callback when one is set; any exception is
caught and logged; `finally`: `basic_ack`. -/
def on_device_event (msg : ConsumedMsg) (now : String) (persistOk : Bool)
    (cbSet : Bool) : List Action :=
  match msg with
  | .malformed => [.logError, .ack]
  | .payload p0 =>
      let p1 := Py.dset p0 "timestamp" ((Py.dget p0 "timestamp").getD (.prim (.str now)))
      if persistOk then
        let stored := EventsDAO.insertDoc now p1
        [.persist stored true]
          ++ (if cbSet then [.broadcast "device_event" p1] else [])
          ++ [.ack]
      else
        [.persist p1 false, .logError, .ack]

/-- Whether an action is the broker acknowledgment. -/
def isAck : Action → Bool
  | .ack => true
  | _ => false

/-- Whether an action is a persistence attempt. -/
def isPersist : Action → Bool
  | .persist _ _ => true
  | _ => false

end RabbitMQConsumer

namespace RabbitMQPublisher

/-- State of the publisher's `_connection` / `_channel` fields: `None`,
a closed handle, or an open handle. -/
inductive Handle where
  | absent
  | closed
  | opened
deriving DecidableEq

/-- The publisher's mutable state: connection handle, channel handle,
and whether the `device_events` topic exchange has been declared on the
current connection. -/
structure PubState where
  conn : Handle
  chan : Handle
  exchangeDeclared : Bool
deriving DecidableEq

/-- Broker behaviour for one `publish_event` call: whether
`pika.BlockingConnection(parameters)` succeeds, and whether
`basic_publish` on an open channel succeeds. -/
structure World where
  connectOk : Bool
  publishOk : Bool
deriving DecidableEq

/-- Observable broker-side actions of a `publish_event` call; a publish
attempt carries the JSON message body it sent. -/
inductive PubAction where
  | connectAttempt
  | declareExchange
  | publishAttempt : Py.Dict → PubAction
deriving DecidableEq

/-- The `connection` property: when `_connection is None or
self._connection.is_closed`, build a new `BlockingConnection`, open a
channel and declare the durable `device_events` topic exchange; a
connection failure is logged and re-raised (`AMQPConnectionError`).
Returns the new state and the trace, or the trace up to the raise. -/
def connectionProp (w : World) (s : PubState) :
    Except (List PubAction) (PubState × List PubAction) :=
  if s.conn = .absent ∨ s.conn = .closed then
    if w.connectOk then
      .ok (⟨.opened, .opened, true⟩, [.connectAttempt, .declareExchange])
    else .error [.connectAttempt]
  else .ok (s, [])

/-- The `channel` property: when `_channel is None or is_closed`, touch
the `connection` property (reconnecting if needed) and open a fresh
channel on it. -/
def channelProp (w : World) (s : PubState) :
    Except (List PubAction) (PubState × List PubAction) :=
  if s.chan = .absent ∨ s.chan = .closed then
    match connectionProp w s with
    | .ok (s', as) => .ok ({ s' with chan := .opened }, as)
    | .error as => .error as
  else .ok (s, [])

/-- The timestamp-defaulting step at the top of `publish_event`:
`if 'timestamp' not in event_data: event_data['timestamp'] = ...`. -/
def stampEvent (now : String) (e : Py.Dict) : Py.Dict :=
  if Py.dcontains e "timestamp" then e
  else Py.dset e "timestamp" (.prim (.str now))

/-- `RabbitMQPublisher.publish_event(routing_key, event_data)` under
`self._lock`: default the timestamp, serialize, and `basic_publish` a
persistent message on `self.channel`.  `AMQPConnectionError` /
`AMQPChannelError` (from the lazy reconnect or from the publish) are
caught, the connection and channel are reset to `None`, and `False` is
returned; any other exception is caught and `False` is returned; the
call itself never raises.  Returns (success, new state, trace). -/
def publish_event (w : World) (now : String) (event_data : Py.Dict)
    (s : PubState) : Bool × PubState × List PubAction :=
  let message := stampEvent now event_data
  match channelProp w s with
  | .error as => (false, ⟨.absent, .absent, false⟩, as)
  | .ok (s', as) =>
      if w.publishOk then (true, s', as ++ [.publishAttempt message])
      else (false, ⟨.absent, .absent, false⟩, as ++ [.publishAttempt message])

/-- Whether a broker-side action is a publish attempt. -/
def isPublishAttempt : PubAction → Bool
  | .publishAttempt _ => true
  | _ => false

/-- The event dict built by `publish_telemetry(device_id, device_name,
data)`. -/
def telemetryEvent (device_id : Int) (device_name : String)
    (data : List (String × Py.Prim)) : Py.Dict :=
  [("event_type", .prim (.str "telemetry")),
   ("device_id", .prim (.int device_id)),
   ("device_name", .prim (.str device_name)),
   ("data", .dict data)]

/-- The event dict built by `publish_device_event(device_id,
device_name, event_type, details)`. -/
def deviceEvent (device_id : Int) (device_name : String)
    (event_type : String) (details : List (String × Py.Prim)) : Py.Dict :=
  [("event_type", .prim (.str event_type)),
   ("device_id", .prim (.int device_id)),
   ("device_name", .prim (.str device_name)),
   ("details", .dict details)]

end RabbitMQPublisher

/-- Python truthiness of an `Optional[int]` argument
(`if device_id:` — `None` and `0` are falsy). -/
def pyTruthyInt : Option Int → Bool
  | Option.none => false
  | some n => n ≠ 0

/-- Python truthiness of an `Optional[str]` argument
(`if event_type:` — `None` and `""` are falsy). -/
def pyTruthyStr : Option String → Bool
  | Option.none => false
  | some s => s ≠ ""

/-- A stored device-event document as seen by `EventsDAO.get_all`:
`device_id` and `timestamp` are read unconditionally
(`doc["device_id"]`, `doc["timestamp"]`), `event_type` with a default
(`doc.get("event_type", "")`).  Timestamps are ISO-8601 strings whose
lexicographic order agrees with chronological order; they are modelled
as an abstract ordered value. -/
structure EventDoc where
  device_id : Int
  event_type : Option String
  timestamp : Nat
deriving DecidableEq

/-- A stored telemetry document as seen by `TelemetryDAO.get_all`. -/
structure TelemetryDoc where
  device_id : Int
  device_type : Option String
  timestamp : Nat
deriving DecidableEq

instance : IsTotal EventDoc (fun a b => b.timestamp ≤ a.timestamp) :=
  ⟨fun a b => le_total b.timestamp a.timestamp⟩

instance : IsTrans EventDoc (fun a b => b.timestamp ≤ a.timestamp) :=
  ⟨fun _ _ _ hab hbc => le_trans hbc hab⟩

instance : IsTotal TelemetryDoc (fun a b => b.timestamp ≤ a.timestamp) :=
  ⟨fun a b => le_total b.timestamp a.timestamp⟩

instance : IsTrans TelemetryDoc (fun a b => b.timestamp ≤ a.timestamp) :=
  ⟨fun _ _ _ hab hbc => le_trans hbc hab⟩

namespace EventsDAO

/-- The MongoDB filter built by `EventsDAO.get_all`: a `device_id`
equality constraint only when the argument is truthy, an `event_type`
equality constraint only when the argument is truthy. -/
def buildQuery (device_id : Option Int) (event_type : Option String) :
    Option Int × Option String :=
  ((if pyTruthyInt device_id then device_id else Option.none),
   (if pyTruthyStr event_type then event_type else Option.none))

/-- MongoDB document matching for the equality filter built above. -/
def docMatches (q : Option Int × Option String) (d : EventDoc) : Bool :=
  (match q.1 with
   | Option.none => true
   | some n => d.device_id = n) &&
  (match q.2 with
   | Option.none => true
   | some t => d.event_type = some t)

/-- `EventsDAO.get_all(device_id, event_type, limit)`:
`find(query).sort("timestamp", -1).limit(limit)` — select the matching
documents, order them most-recent-first, and return at most `limit`
of them.  (The controller guarantees `limit ≥ 1`, so MongoDB's special
`limit(0)` = "no limit" case is unreachable from the public surface.) -/
def get_all (store : List EventDoc) (device_id : Option Int)
    (event_type : Option String) (limit : Nat) : List EventDoc :=
  let q := buildQuery device_id event_type
  (List.insertionSort (fun a b : EventDoc => b.timestamp ≤ a.timestamp)
    (store.filter (docMatches q))).take limit

end EventsDAO

namespace TelemetryDAO

/-- The MongoDB filter built by `TelemetryDAO.get_all`. -/
def buildQuery (device_id : Option Int) (device_type : Option String) :
    Option Int × Option String :=
  ((if pyTruthyInt device_id then device_id else Option.none),
   (if pyTruthyStr device_type then device_type else Option.none))

/-- MongoDB document matching for the telemetry filter. -/
def docMatches (q : Option Int × Option String) (d : TelemetryDoc) : Bool :=
  (match q.1 with
   | Option.none => true
   | some n => d.device_id = n) &&
  (match q.2 with
   | Option.none => true
   | some t => d.device_type = some t)

/-- `TelemetryDAO.get_all(device_id, device_type, limit)`:
`find(query).sort("timestamp", -1).limit(limit)`. -/
def get_all (store : List TelemetryDoc) (device_id : Option Int)
    (device_type : Option String) (limit : Nat) : List TelemetryDoc :=
  let q := buildQuery device_id device_type
  (List.insertionSort (fun a b : TelemetryDoc => b.timestamp ≤ a.timestamp)
    (store.filter (docMatches q))).take limit

end TelemetryDAO

/-- The FastAPI validation on the events query surface
(`events_controller.py`: `limit: int = Query(100, ge=1, le=1000)`):
a request whose `limit` is outside `[1, 1000]` is rejected with a 422
before the DAO is reached. -/
def get_events (store : List EventDoc) (device_id : Option Int)
    (event_type : Option String) (limit : Int) :
    Except String (List EventDoc) :=
  if 1 ≤ limit ∧ limit ≤ 1000 then
    .ok (EventsDAO.get_all store device_id event_type limit.toNat)
  else .error "validation error: limit out of range"

namespace Py

/-- A naive `datetime.datetime` value. -/
structure DateTime where
  year : Nat
  month : Nat
  day : Nat
  hour : Nat
  minute : Nat
  second : Nat
deriving DecidableEq

/-- Gregorian leap-year rule. -/
def isLeapYear (y : Nat) : Bool :=
  (y % 4 = 0 && y % 100 ≠ 0) || y % 400 = 0

/-- Number of days in a month. -/
def daysInMonth (y m : Nat) : Nat :=
  if m = 2 then (if isLeapYear y then 29 else 28)
  else if m = 4 ∨ m = 6 ∨ m = 9 ∨ m = 11 then 30
  else 31

/-- Python `datetime.replace(day=newDay)`: raises
`ValueError: day is out of range for month` unless
`1 <= newDay <= daysInMonth`. -/
def replaceDay (dt : DateTime) (newDay : Int) :
    Except String DateTime :=
  if 1 ≤ newDay ∧ newDay ≤ (daysInMonth dt.year dt.month : Int) then
    .ok { dt with day := newDay.toNat }
  else .error "day is out of range for month"

/-- Left-pad a numeral to two digits (`isoformat` field formatting). -/
def pad2 (n : Nat) : String :=
  if n < 10 then "0" ++ toString n else toString n

/-- `datetime.isoformat()` for a naive datetime (seconds precision). -/
def isoformat (dt : DateTime) : String :=
  toString dt.year ++ "-" ++ pad2 dt.month ++ "-" ++ pad2 dt.day ++ "T" ++
    pad2 dt.hour ++ ":" ++ pad2 dt.minute ++ ":" ++ pad2 dt.second

end Py

namespace EventsDAO

/-- `EventsDAO.delete_old_data(days)` (`events_dao.py`):
`cutoff_date = utcnow().replace(day=utcnow().day - days)`, then
`delete_many({"timestamp": {"$lt": cutoff_date.isoformat()}})`,
returning the remaining store and the deleted count.  The
`replace(day=...)` call raises `ValueError` whenever
`now.day - days` is outside `[1, daysInMonth]`. -/
def delete_old_data (now : Py.DateTime) (days : Nat)
    (store : List String) : Except String (List String × Nat) := do
  let cutoff ← Py.replaceDay now ((now.day : Int) - (days : Int))
  let cutoffIso := Py.isoformat cutoff
  let kept := store.filter (fun ts => !(decide (ts < cutoffIso)))
  let removed := store.length - kept.length
  return (kept, removed)

end EventsDAO

namespace TelemetryDAO

/-- `TelemetryDAO.delete_old_data(days)` (`telemetry_dao.py`): same
date arithmetic as `EventsDAO.delete_old_data`. -/
def delete_old_data (now : Py.DateTime) (days : Nat)
    (store : List String) : Except String (List String × Nat) := do
  let cutoff ← Py.replaceDay now ((now.day : Int) - (days : Int))
  let cutoffIso := Py.isoformat cutoff
  let kept := store.filter (fun ts => !(decide (ts < cutoffIso)))
  let removed := store.length - kept.length
  return (kept, removed)

end TelemetryDAO

namespace CacheService

/-- The `redis` exception taxonomy relevant to `cache_service.py`:
`redis.ConnectionError` and `redis.TimeoutError` are subclasses of
`redis.RedisError`, so `except redis.RedisError` catches them all. -/
inductive RedisErr where
  | connectionErr
  | timeoutErr
  | responseErr
deriving DecidableEq

/-- Behaviour of the Redis backend for one cache call. -/
structure World where
  /-- `redis.Redis(...)` + `ping()` succeed on a lazy connect. -/
  connectOk : Bool
  /-- result of `client.get(key)`. -/
  getResult : Except RedisErr (Option String)
  /-- result of `client.setex(key, ttl, value)`. -/
  setexResult : Except RedisErr Bool
  /-- `json.dumps(value)` succeeds (else `TypeError`). -/
  serializeOk : Bool
  /-- result of `client.delete(...)` (number of keys removed). -/
  deleteResult : Except RedisErr Nat
  /-- result of `client.keys(pattern)`. -/
  keysResult : Except RedisErr (List String)

/-- The service's `_client` field: `None` until the first successful
lazy connect. -/
abbrev CState := Bool

/-- The `client` property: on `_client is None`, assign
`redis.Redis(...)` to `_client` and `ping()`; a `redis.ConnectionError`
from the ping is logged and re-raised.  The assignment happens before
the ping, so `_client` is non-`None` afterwards even when the ping
raised.  Returns the raised error (if any) and the state after the
call. -/
def clientProp (w : World) (s : CState) : Except RedisErr Unit × CState :=
  if s then (.ok (), s)
  else if w.connectOk then (.ok (), true)
  else (.error .connectionErr, true)

/-- `CacheService.get(key)`: `self.client.get(key)` inside
`try/except redis.RedisError`; any Redis error (including a failed
lazy connect) yields `None`. -/
def get (w : World) (s : CState) : Option String × CState :=
  match clientProp w s with
  | (.error _, s') => (Option.none, s')
  | (.ok _, s') =>
      match w.getResult with
      | .error _ => (Option.none, s')
      | .ok v => (v, s')

/-- `CacheService.set(key, value, expire_seconds)`: `json.dumps` then
`setex` inside `try/except (redis.RedisError, TypeError)`; any of those
errors yields `False`. -/
def set (w : World) (s : CState) : Bool × CState :=
  if w.serializeOk then
    match clientProp w s with
    | (.error _, s') => (false, s')
    | (.ok _, s') =>
        match w.setexResult with
        | .error _ => (false, s')
        | .ok b => (b, s')
  else (false, s)

/-- `CacheService.delete(key)`: `bool(self.client.delete(key))` inside
`try/except redis.RedisError`; any Redis error yields `False`. -/
def delete (w : World) (s : CState) : Bool × CState :=
  match clientProp w s with
  | (.error _, s') => (false, s')
  | (.ok _, s') =>
      match w.deleteResult with
      | .error _ => (false, s')
      | .ok n => (decide (n ≠ 0), s')

/-- `CacheService.delete_pattern(pattern)`: `keys = client.keys(pattern)`;
`if keys: return client.delete(*keys)`; `return 0`, inside
`try/except redis.RedisError`; any Redis error yields `0`. -/
def delete_pattern (w : World) (s : CState) : Nat × CState :=
  match clientProp w s with
  | (.error _, s') => (0, s')
  | (.ok _, s') =>
      match w.keysResult with
      | .error _ => (0, s')
      | .ok keys =>
          if keys.isEmpty then (0, s')
          else
            match w.deleteResult with
            | .error _ => (0, s')
            | .ok n => (n, s')

end CacheService

/-! ## Helper lemmas on Python dict semantics -/

theorem Py.dget_dset_self (d : Py.Dict) (k : String) (v : Py.Val) :
    Py.dget (Py.dset d k v) k = some v := by
  induction d with
  | nil => simp [Py.dset, Py.dget]
  | cons kv rest ih =>
      obtain ⟨a, b⟩ := kv
      by_cases h : a = k
      · subst h; simp [Py.dset, Py.dget]
      · simp [Py.dset, Py.dget, h, ih]

theorem Py.dcontains_dset_self (d : Py.Dict) (k : String) (v : Py.Val) :
    Py.dcontains (Py.dset d k v) k = true := by
  simp [Py.dcontains, Py.dget_dset_self]

theorem Py.dcontains_dset_mono (d : Py.Dict) (k k' : String) (v : Py.Val)
    (h : Py.dcontains d k = true) :
    Py.dcontains (Py.dset d k' v) k = true := by
  induction d with
  | nil => simp [Py.dcontains, Py.dget] at h
  | cons kv rest ih =>
      obtain ⟨a, b⟩ := kv
      by_cases hk : a = k'
      · subst hk
        by_cases hak : a = k
        · subst hak; simp [Py.dset, Py.dcontains, Py.dget]
        · simp [Py.dset, Py.dcontains, Py.dget, hak] at h ⊢
          exact h
      · by_cases hak : a = k
        · subst hak; simp [Py.dset, hk, Py.dcontains, Py.dget]
        · simp [Py.dset, hk, Py.dcontains, Py.dget, hak] at h ⊢
          exact ih h

theorem Py.dcontains_dpop_ne (d : Py.Dict) (key k : String) (h : k ≠ key) :
    Py.dcontains (Py.dpop d key) k = Py.dcontains d k := by
  induction d with
  | nil => simp [Py.dpop]
  | cons kv rest ih =>
      obtain ⟨a, b⟩ := kv
      by_cases hak : a = key
      · subst hak
        have hka : a ≠ k := fun hh => h hh.symm
        simp [Py.dpop, List.filter_cons, Py.dcontains, Py.dget, hka] at ih ⊢
        exact ih
      · by_cases hk : a = k
        · subst hk; simp [Py.dpop, List.filter_cons, hak, Py.dcontains, Py.dget]
        · simp [Py.dpop, List.filter_cons, hak, Py.dcontains, Py.dget, hk] at ih ⊢
          exact ih

theorem Py.dcontains_dupdate_mono (e d : Py.Dict) (k : String)
    (h : Py.dcontains d k = true) :
    Py.dcontains (Py.dupdate d e) k = true := by
  induction e generalizing d with
  | nil => simpa [Py.dupdate] using h
  | cons kv rest ih =>
      have hstep : Py.dupdate d (kv :: rest) =
          Py.dupdate (Py.dset d kv.1 kv.2) rest := rfl
      rw [hstep]
      exact ih _ (Py.dcontains_dset_mono _ _ _ _ h)

theorem Py.dset_dget_eq (d : Py.Dict) (k : String) (v : Py.Val)
    (h : Py.dget d k = some v) : Py.dset d k v = d := by
  induction d with
  | nil => simp [Py.dget] at h
  | cons kv rest ih =>
      obtain ⟨a, b⟩ := kv
      by_cases hk : a = k
      · subst hk
        simp [Py.dget] at h
        simp [Py.dset, h]
      · simp [Py.dget, hk] at h
        simp [Py.dset, hk, ih h]

theorem RabbitMQConsumer.flattenData_contains (p : Py.Dict) (k : String)
    (hk : k ≠ "data") (h : Py.dcontains p k = true) :
    Py.dcontains (RabbitMQConsumer.flattenData p) k = true := by
  unfold RabbitMQConsumer.flattenData
  cases hd : Py.dget p "data" with
  | none => exact h
  | some v =>
      cases v with
      | prim q => exact h
      | dict entries =>
          exact Py.dcontains_dupdate_mono _ _ _
            ((Py.dcontains_dpop_ne p "data" k hk).trans h)

theorem RabbitMQConsumer.enrich_contains (p : Py.Dict)
    (cache : RabbitMQConsumer.TypeCache)
    (outcome : RabbitMQConsumer.LookupOutcome) (k : String)
    (h : Py.dcontains p k = true) :
    Py.dcontains (RabbitMQConsumer.enrich p cache outcome).1 k = true := by
  unfold RabbitMQConsumer.enrich
  cases hd : Py.dget p "device_id" with
  | none => exact h
  | some v =>
      by_cases ht : v.truthy = true
      · simp [ht]
        exact Py.dcontains_dset_mono _ _ _ _ h
      · simp [Bool.eq_false_iff.mpr ht]
        exact h

theorem insertDoc_contains_timestamp (now : String) (d : Py.Dict) :
    Py.dcontains (EventsDAO.insertDoc now d) "timestamp" = true ∧
    Py.dcontains (TelemetryDAO.insertDoc now d) "timestamp" = true := by
  constructor <;>
    · simp only [EventsDAO.insertDoc, TelemetryDAO.insertDoc]
      by_cases h : Py.dcontains d "timestamp" = true
      · simp [h]
      · simp [Bool.eq_false_iff.mpr h]
        exact Py.dcontains_dset_self _ _ _

theorem insertDoc_contains_mono (now : String) (d : Py.Dict) (k : String)
    (h : Py.dcontains d k = true) :
    Py.dcontains (EventsDAO.insertDoc now d) k = true ∧
    Py.dcontains (TelemetryDAO.insertDoc now d) k = true := by
  constructor <;>
    · simp only [EventsDAO.insertDoc, TelemetryDAO.insertDoc]
      by_cases hc : Py.dcontains d "timestamp" = true
      · simp [hc, h]
      · simp [Bool.eq_false_iff.mpr hc]
        exact Py.dcontains_dset_mono _ _ _ _ h

theorem RabbitMQConsumer.get_device_type_failure
    (cache : RabbitMQConsumer.TypeCache) (did : Py.Val)
    (outcome : RabbitMQConsumer.LookupOutcome)
    (hmiss : RabbitMQConsumer.cacheGet cache did = Option.none)
    (hfail : ∀ body, outcome ≠ .response 200 body) :
    RabbitMQConsumer.get_device_type cache did outcome =
      (.prim (.str "other"), cache) := by
  cases outcome with
  | raised => simp [RabbitMQConsumer.get_device_type, hmiss]
  | response s body =>
      have hs : s ≠ 200 := fun h => hfail body (by rw [h])
      simp [RabbitMQConsumer.get_device_type, hmiss, hs]

/-! ## Claim theorems -/

/-- C1: for every device and attempted status transition, a pair
(current, target) outside the §4.1 table — in particular any pair whose
current status is RETIRED — makes the transition operation fail with
`InvalidTransition` leaving the device store unchanged, and a device's
status is always one of the five members of the closed `DeviceStatus`
enum. -/
theorem c1_transition_state_machine :
    (∀ s : DeviceStatus, s ∈ DeviceStatus.all) ∧
    (∀ (store : List Device) (deviceId : Int) (target : DeviceStatus)
       (loc : Option String) (d : Device),
       store.find? (fun e => e.id = deviceId) = some d →
       allowedTransition d.status target = false →
       transitionOp store deviceId target loc =
         (.error .invalidTransition, store)) ∧
    (∀ target : DeviceStatus, allowedTransition .retired target = false) := by
  refine ⟨?_, ?_, ?_⟩
  · intro s; cases s <;> simp [DeviceStatus.all]
  · intro store deviceId target loc d hfind hallow
    simp [transitionOp, hfind, hallow]
  · intro target; cases target <;> rfl

/-- C1 witness: a RETIRED device (id 1) for which a transition to
IN_STOCK is attempted: the operation fails with `InvalidTransition`
and the store is unchanged. -/
theorem c1_transition_state_machine_witness :
    transitionOp [⟨1, .retired, Option.none⟩] 1 .in_stock Option.none =
      (.error .invalidTransition, [⟨1, .retired, Option.none⟩]) :=
  c1_transition_state_machine.2.1 [⟨1, .retired, Option.none⟩] 1 .in_stock
    Option.none ⟨1, .retired, Option.none⟩ (by decide) (by decide)

/-- C2 counterexample: the broadcast queue is `asyncio.Queue()` with the
default `maxsize=0`, i.e. unbounded: with a stalled dispatch loop, no
bound `b` caps the queue length over repeated `queue_broadcast` calls
(after `n` calls the queue holds `n` events, and nothing is ever
dropped), contradicting the claimed finite capacity with
drop-on-overflow. -/
theorem c2_queue_unbounded_counterexample :
    ¬ ∃ b : Nat, ∀ n : Nat, (SocketIOService.queueAfter n).length ≤ b := by
  rintro ⟨b, hb⟩
  have hlen : ∀ n, (SocketIOService.queueAfter n).length = n := by
    intro n
    induction n with
    | zero => rfl
    | succ m ih =>
        simp [SocketIOService.queueAfter, SocketIOService.queue_broadcast,
          SocketIOService.put_nowait, SocketIOService.queueFull,
          SocketIOService.broadcastQueueMaxsize, ih]
  have hc := hb (b + 1)
  rw [hlen] at hc
  omega

/-- C2 (amended): `queue_broadcast` never blocks and never raises to
the Consumer (`put_nowait` inside `try/except`), but the queue is
unbounded — `asyncio.Queue()` is created with the default `maxsize=0`,
so the push always succeeds by appending and no event is ever dropped
for capacity; the queue can grow without bound while the dispatch loop
is stalled. -/
theorem c2_queue_broadcast_nonblocking :
    (∀ (q : List SocketIOService.BEvent) (event : String) (data : Py.Dict),
       SocketIOService.queue_broadcast q event data = q ++ [⟨event, data⟩]) ∧
    SocketIOService.broadcastQueueMaxsize = 0 := by
  constructor
  · intro q event data
    simp [SocketIOService.queue_broadcast, SocketIOService.put_nowait,
      SocketIOService.queueFull, SocketIOService.broadcastQueueMaxsize]
  · rfl

/-- C3 counterexample: on a device-type lookup failure the consumer's
fallback marker is the string `'other'`, not the claimed `"unknown"`:
at device id 7 with an empty memo and a raised request exception,
`_get_device_type` evaluates to `'other'`. -/
theorem c3_unknown_marker_counterexample :
    RabbitMQConsumer.get_device_type [] (.prim (.int 7)) .raised =
      (.prim (.str "other"), []) ∧
    Py.Val.prim (.str "other") ≠ Py.Val.prim (.str "unknown") := by
  constructor
  · rfl
  · decide

/-- C3 (amended): for every consumed telemetry event whose device-type
lookup fails (memo miss and any non-200 response, timeout or exception),
`_get_device_type` returns the sentinel `'other'` marker without
memoizing it, the event is enriched with `device_type = 'other'` and is
still persisted and forwarded to the broadcast stage — never discarded
(and the lookup carries a bounded `timeout=5`). -/
theorem c3_lookup_failure_event_enriched_and_kept :
    (∀ (cache : RabbitMQConsumer.TypeCache) (did : Py.Val)
       (outcome : RabbitMQConsumer.LookupOutcome),
       RabbitMQConsumer.cacheGet cache did = Option.none →
       (∀ body, outcome ≠ .response 200 body) →
       RabbitMQConsumer.get_device_type cache did outcome =
         (.prim (.str "other"), cache)) ∧
    (∀ (p : Py.Dict) (ts : Py.Val) (now : String)
       (cache : RabbitMQConsumer.TypeCache)
       (outcome : RabbitMQConsumer.LookupOutcome) (did : Py.Val),
       Py.dget p "timestamp" = some ts →
       Py.dget p "data" = Option.none →
       Py.dget p "device_id" = some did →
       did.truthy = true →
       RabbitMQConsumer.cacheGet cache did = Option.none →
       (∀ body, outcome ≠ .response 200 body) →
       (RabbitMQConsumer.on_telemetry (.payload p) now cache outcome
         true true).1 =
         [.persist (Py.dset p "device_type" (.prim (.str "other"))) true,
          .broadcast "telemetry" (Py.dset p "device_type" (.prim (.str "other"))),
          .ack]) := by
  constructor
  · exact RabbitMQConsumer.get_device_type_failure
  · intro p ts now cache outcome did hts hdata hdid htr hmiss hfail
    have h1 : Py.dset p "timestamp"
        ((Py.dget p "timestamp").getD (.prim (.str now))) = p := by
      rw [hts]
      exact Py.dset_dget_eq p "timestamp" ts hts
    have h2 : RabbitMQConsumer.flattenData p = p := by
      unfold RabbitMQConsumer.flattenData
      rw [hdata]
    have h3 : RabbitMQConsumer.enrich p cache outcome =
        (Py.dset p "device_type" (.prim (.str "other")), cache) := by
      unfold RabbitMQConsumer.enrich
      rw [hdid]
      simp [htr, RabbitMQConsumer.get_device_type_failure cache did outcome
        hmiss hfail]
    have h4 : Py.dcontains (Py.dset p "device_type" (.prim (.str "other")))
        "timestamp" = true :=
      Py.dcontains_dset_mono _ _ _ _ (by simp [Py.dcontains, hts])
    simp [RabbitMQConsumer.on_telemetry, h1, h2, h3,
      TelemetryDAO.insertDoc, h4]

/-- C3 witness: a telemetry payload for device 7 with an empty memo and
a raised lookup exception is enriched with `device_type = 'other'`,
persisted and broadcast. -/
theorem c3_lookup_failure_witness :
    (RabbitMQConsumer.on_telemetry
      (.payload [("device_id", .prim (.int 7)),
                 ("timestamp", .prim (.str "T1"))])
      "T2" [] .raised true true).1 =
      [.persist (Py.dset [("device_id", .prim (.int 7)),
                          ("timestamp", .prim (.str "T1"))]
                   "device_type" (.prim (.str "other"))) true,
       .broadcast "telemetry"
         (Py.dset [("device_id", .prim (.int 7)),
                   ("timestamp", .prim (.str "T1"))]
            "device_type" (.prim (.str "other"))),
       .ack] :=
  c3_lookup_failure_event_enriched_and_kept.2
    [("device_id", .prim (.int 7)), ("timestamp", .prim (.str "T1"))]
    (.prim (.str "T1")) "T2" [] .raised (.prim (.int 7))
    (by decide) (by decide) (by decide) (by decide) (by decide)
    (fun body h => nomatch h)

/-- C4: for every message delivered to the telemetry or device-event
handler, the broker acknowledgment is issued exactly once, as the last
action, and for every decodable message a persistence attempt (success
or caught failure) precedes it; a malformed message is logged and
acknowledged anyway, leaving the handler ready for the next message. -/
theorem c4_ack_once_after_persistence :
    (∀ (msg : RabbitMQConsumer.ConsumedMsg) (now : String)
       (cache : RabbitMQConsumer.TypeCache)
       (outcome : RabbitMQConsumer.LookupOutcome) (persistOk cbSet : Bool),
       ∃ pre,
         (RabbitMQConsumer.on_telemetry msg now cache outcome
           persistOk cbSet).1 = pre ++ [.ack] ∧
         pre.countP RabbitMQConsumer.isAck = 0 ∧
         (∀ p, msg = .payload p →
            ∃ doc ok, RabbitMQConsumer.Action.persist doc ok ∈ pre) ∧
         (msg = .malformed →
            (RabbitMQConsumer.on_telemetry msg now cache outcome
              persistOk cbSet).1 = [.logError, .ack])) ∧
    (∀ (msg : RabbitMQConsumer.ConsumedMsg) (now : String)
       (persistOk cbSet : Bool),
       ∃ pre,
         RabbitMQConsumer.on_device_event msg now persistOk cbSet =
           pre ++ [.ack] ∧
         pre.countP RabbitMQConsumer.isAck = 0 ∧
         (∀ p, msg = .payload p →
            ∃ doc ok, RabbitMQConsumer.Action.persist doc ok ∈ pre) ∧
         (msg = .malformed →
            RabbitMQConsumer.on_device_event msg now persistOk cbSet =
              [.logError, .ack])) := by
  constructor
  · intro msg now cache outcome persistOk cbSet
    cases msg with
    | malformed =>
        refine ⟨[.logError], rfl, rfl, ?_, fun _ => rfl⟩
        intro p hp
        simp at hp
    | payload p =>
        cases persistOk with
        | true =>
            cases cbSet with
            | true =>
                refine ⟨_ :: _ :: [], rfl, rfl, ?_, ?_⟩
                · exact fun q hq => ⟨_, _, List.mem_cons_self _ _⟩
                · intro h; simp at h
            | false =>
                refine ⟨_ :: [], rfl, rfl, ?_, ?_⟩
                · exact fun q hq => ⟨_, _, List.mem_cons_self _ _⟩
                · intro h; simp at h
        | false =>
            refine ⟨_ :: .logError :: [], rfl, rfl, ?_, ?_⟩
            · exact fun q hq => ⟨_, _, List.mem_cons_self _ _⟩
            · intro h; simp at h
  · intro msg now persistOk cbSet
    cases msg with
    | malformed =>
        refine ⟨[.logError], rfl, rfl, ?_, fun _ => rfl⟩
        intro p hp
        simp at hp
    | payload p =>
        cases persistOk with
        | true =>
            cases cbSet with
            | true =>
                refine ⟨_ :: _ :: [], rfl, rfl, ?_, ?_⟩
                · exact fun q hq => ⟨_, _, List.mem_cons_self _ _⟩
                · intro h; simp at h
            | false =>
                refine ⟨_ :: [], rfl, rfl, ?_, ?_⟩
                · exact fun q hq => ⟨_, _, List.mem_cons_self _ _⟩
                · intro h; simp at h
        | false =>
            refine ⟨_ :: .logError :: [], rfl, rfl, ?_, ?_⟩
            · exact fun q hq => ⟨_, _, List.mem_cons_self _ _⟩
            · intro h; simp at h

/-- C4 witness: a malformed message in both handlers is logged and
acknowledged (trace `[logError, ack]`), and a decodable telemetry
message whose Mongo insert fails is still acknowledged exactly once,
after the persistence attempt. -/
theorem c4_ack_once_after_persistence_witness :
    (RabbitMQConsumer.on_telemetry .malformed "T" [] .raised true true).1 =
      [.logError, .ack] ∧
    RabbitMQConsumer.on_device_event .malformed "T" true true =
      [.logError, .ack] := by
  constructor
  · obtain ⟨pre, h1, h2, h3, h4⟩ :=
      c4_ack_once_after_persistence.1 .malformed "T" [] .raised true true
    exact h4 rfl
  · obtain ⟨pre, h1, h2, h3, h4⟩ :=
      c4_ack_once_after_persistence.2 .malformed "T" true true
    exact h4 rfl

/-- C5 (the code evaluated at a failing input): `delete_old_data` with
the default `days=30`, invoked with the clock at 2026-10-12 14:30:00
UTC, computes `utcnow().replace(day=12-30)` and raises
`ValueError: day is out of range for month` instead of deleting the
records older than 30 days — for both the events and the telemetry
DAO, and for every store contents. -/
theorem c5_delete_old_data_raises_value_error :
    ∀ (store : List String),
      EventsDAO.delete_old_data ⟨2026, 10, 12, 14, 30, 0⟩ 30 store =
        .error "day is out of range for month" ∧
      TelemetryDAO.delete_old_data ⟨2026, 10, 12, 14, 30, 0⟩ 30 store =
        .error "day is out of range for month" := by
  intro store
  constructor <;> rfl

/-- C6: a `publish_event` call made after a connection loss (both
handles reset to `None` by the previous failure) first re-establishes
the connection and declares the `device_events` topic exchange, then
makes exactly one publish attempt with the timestamped message;
it returns `True` only when both reconnect and publish succeed, returns
`False` (never raises) otherwise, and leaves the handles reset to
`None` after a failure so the next call reconnects again. -/
theorem c6_publish_event_reconnects_and_reports_failure :
    ∀ (w : RabbitMQPublisher.World) (now : String) (ev : Py.Dict),
      (RabbitMQPublisher.publish_event w now ev ⟨.absent, .absent, false⟩).1 =
        (w.connectOk && w.publishOk) ∧
      (w.connectOk = true →
        (RabbitMQPublisher.publish_event w now ev ⟨.absent, .absent, false⟩).2.2 =
          [.connectAttempt, .declareExchange,
           .publishAttempt (RabbitMQPublisher.stampEvent now ev)]) ∧
      (w.connectOk = false →
        (RabbitMQPublisher.publish_event w now ev ⟨.absent, .absent, false⟩).2.2 =
          [.connectAttempt]) ∧
      ((RabbitMQPublisher.publish_event w now ev ⟨.absent, .absent, false⟩).1 = false →
        (RabbitMQPublisher.publish_event w now ev ⟨.absent, .absent, false⟩).2.1 =
          ⟨.absent, .absent, false⟩) ∧
      (RabbitMQPublisher.publish_event w now ev
          ⟨.absent, .absent, false⟩).2.2.countP
        RabbitMQPublisher.isPublishAttempt ≤ 1 := by
  intro w now ev
  obtain ⟨co, po⟩ := w
  cases co <;> cases po <;>
    simp [RabbitMQPublisher.publish_event, RabbitMQPublisher.channelProp,
      RabbitMQPublisher.connectionProp, RabbitMQPublisher.isPublishAttempt,
      List.countP_cons, List.countP_nil]

/-- C6 witness: with the broker down (reconnect fails) the call returns
`False` after a single failed connection attempt; with the broker up
and the publish succeeding it returns `True` after connect, exchange
declaration and one publish. -/
theorem c6_publish_event_witness :
    (RabbitMQPublisher.publish_event ⟨false, true⟩ "T" []
        ⟨.absent, .absent, false⟩).1 = false ∧
    (RabbitMQPublisher.publish_event ⟨false, true⟩ "T" []
        ⟨.absent, .absent, false⟩).2.2 = [.connectAttempt] ∧
    (RabbitMQPublisher.publish_event ⟨true, true⟩ "T" []
        ⟨.absent, .absent, false⟩).1 = true := by
  refine ⟨?_, ?_, ?_⟩
  · simpa using (c6_publish_event_reconnects_and_reports_failure
      ⟨false, true⟩ "T" []).1
  · exact (c6_publish_event_reconnects_and_reports_failure
      ⟨false, true⟩ "T" []).2.2.1 rfl
  · simpa using (c6_publish_event_reconnects_and_reports_failure
      ⟨true, true⟩ "T" []).1

theorem RabbitMQPublisher.stampEvent_contains_mono (now : String)
    (e : Py.Dict) (k : String) (h : Py.dcontains e k = true) :
    Py.dcontains (RabbitMQPublisher.stampEvent now e) k = true := by
  unfold RabbitMQPublisher.stampEvent
  by_cases hc : Py.dcontains e "timestamp" = true
  · simp [hc, h]
  · simp [Bool.eq_false_iff.mpr hc]
    exact Py.dcontains_dset_mono _ _ _ _ h

theorem RabbitMQConsumer.on_telemetry_persist_key
    (p : Py.Dict) (now : String) (cache : RabbitMQConsumer.TypeCache)
    (outcome : RabbitMQConsumer.LookupOutcome) (persistOk cbSet : Bool)
    (k : String) (hk : k ≠ "data")
    (h1 : Py.dcontains
      (Py.dset p "timestamp"
        ((Py.dget p "timestamp").getD (.prim (.str now)))) k = true) :
    ∀ doc ok,
      RabbitMQConsumer.Action.persist doc ok ∈
        (RabbitMQConsumer.on_telemetry (.payload p) now cache outcome
          persistOk cbSet).1 →
      Py.dcontains doc k = true := by
  intro doc ok hmem
  have h3 : Py.dcontains
      (RabbitMQConsumer.enrich
        (RabbitMQConsumer.flattenData
          (Py.dset p "timestamp"
            ((Py.dget p "timestamp").getD (.prim (.str now)))))
        cache outcome).1 k = true :=
    RabbitMQConsumer.enrich_contains _ _ _ _
      (RabbitMQConsumer.flattenData_contains _ _ hk h1)
  cases persistOk with
  | true =>
      cases cbSet with
      | true =>
          simp [RabbitMQConsumer.on_telemetry] at hmem
          obtain ⟨hdoc, -⟩ := hmem
          subst hdoc
          exact (insertDoc_contains_mono now _ k h3).2
      | false =>
          simp [RabbitMQConsumer.on_telemetry] at hmem
          obtain ⟨hdoc, -⟩ := hmem
          subst hdoc
          exact (insertDoc_contains_mono now _ k h3).2
  | false =>
      simp [RabbitMQConsumer.on_telemetry] at hmem
      obtain ⟨hdoc, -⟩ := hmem
      subst hdoc
      exact h3

theorem RabbitMQConsumer.on_device_event_persist_key
    (p : Py.Dict) (now : String) (persistOk cbSet : Bool)
    (k : String)
    (h1 : Py.dcontains
      (Py.dset p "timestamp"
        ((Py.dget p "timestamp").getD (.prim (.str now)))) k = true) :
    ∀ doc ok,
      RabbitMQConsumer.Action.persist doc ok ∈
        RabbitMQConsumer.on_device_event (.payload p) now persistOk cbSet →
      Py.dcontains doc k = true := by
  intro doc ok hmem
  cases persistOk with
  | true =>
      cases cbSet with
      | true =>
          simp [RabbitMQConsumer.on_device_event] at hmem
          obtain ⟨hdoc, -⟩ := hmem
          subst hdoc
          exact (insertDoc_contains_mono now _ k h1).1
      | false =>
          simp [RabbitMQConsumer.on_device_event] at hmem
          obtain ⟨hdoc, -⟩ := hmem
          subst hdoc
          exact (insertDoc_contains_mono now _ k h1).1
  | false =>
      simp [RabbitMQConsumer.on_device_event] at hmem
      obtain ⟨hdoc, -⟩ := hmem
      subst hdoc
      exact h1

/-- C9: every record written to the Event Store carries a timestamp —
the storage layer assigns one when the input lacks it, and the
Publisher assigns one before sending — and, for every event produced by
the Publisher's telemetry / device-event entry points and processed by
the Consumer's handlers, the persisted document also carries the device
id, whatever the enrichment outcome, broadcast configuration or
persistence result. -/
theorem c9_stored_events_carry_timestamp_and_device_id :
    (∀ (now : String) (data : Py.Dict),
       Py.dcontains (EventsDAO.insertDoc now data) "timestamp" = true ∧
       Py.dcontains (TelemetryDAO.insertDoc now data) "timestamp" = true) ∧
    (∀ (did : Int) (name : String) (data : List (String × Py.Prim))
       (nowPub nowCon : String) (cache : RabbitMQConsumer.TypeCache)
       (outcome : RabbitMQConsumer.LookupOutcome) (persistOk cbSet : Bool)
       (doc : Py.Dict) (ok : Bool),
       RabbitMQConsumer.Action.persist doc ok ∈
         (RabbitMQConsumer.on_telemetry
           (.payload (RabbitMQPublisher.stampEvent nowPub
             (RabbitMQPublisher.telemetryEvent did name data)))
           nowCon cache outcome persistOk cbSet).1 →
       Py.dcontains doc "timestamp" = true ∧
       Py.dcontains doc "device_id" = true) ∧
    (∀ (did : Int) (name : String) (etype : String)
       (details : List (String × Py.Prim)) (nowPub nowCon : String)
       (persistOk cbSet : Bool) (doc : Py.Dict) (ok : Bool),
       RabbitMQConsumer.Action.persist doc ok ∈
         RabbitMQConsumer.on_device_event
           (.payload (RabbitMQPublisher.stampEvent nowPub
             (RabbitMQPublisher.deviceEvent did name etype details)))
           nowCon persistOk cbSet →
       Py.dcontains doc "timestamp" = true ∧
       Py.dcontains doc "device_id" = true) := by
  refine ⟨insertDoc_contains_timestamp, ?_, ?_⟩
  · intro did name data nowPub nowCon cache outcome persistOk cbSet doc ok hmem
    have hdid0 : Py.dcontains
        (RabbitMQPublisher.telemetryEvent did name data) "device_id" = true := by
      simp [RabbitMQPublisher.telemetryEvent, Py.dcontains, Py.dget]
    have hdid1 : Py.dcontains
        (RabbitMQPublisher.stampEvent nowPub
          (RabbitMQPublisher.telemetryEvent did name data)) "device_id" = true :=
      RabbitMQPublisher.stampEvent_contains_mono _ _ _ hdid0
    constructor
    · exact RabbitMQConsumer.on_telemetry_persist_key _ nowCon cache outcome
        persistOk cbSet "timestamp" (by decide)
        (Py.dcontains_dset_self _ _ _) doc ok hmem
    · exact RabbitMQConsumer.on_telemetry_persist_key _ nowCon cache outcome
        persistOk cbSet "device_id" (by decide)
        (Py.dcontains_dset_mono _ _ _ _ hdid1) doc ok hmem
  · intro did name etype details nowPub nowCon persistOk cbSet doc ok hmem
    have hdid0 : Py.dcontains
        (RabbitMQPublisher.deviceEvent did name etype details)
          "device_id" = true := by
      simp [RabbitMQPublisher.deviceEvent, Py.dcontains, Py.dget]
    have hdid1 : Py.dcontains
        (RabbitMQPublisher.stampEvent nowPub
          (RabbitMQPublisher.deviceEvent did name etype details))
          "device_id" = true :=
      RabbitMQPublisher.stampEvent_contains_mono _ _ _ hdid0
    constructor
    · exact RabbitMQConsumer.on_device_event_persist_key _ nowCon
        persistOk cbSet "timestamp"
        (Py.dcontains_dset_self _ _ _) doc ok hmem
    · exact RabbitMQConsumer.on_device_event_persist_key _ nowCon
        persistOk cbSet "device_id"
        (Py.dcontains_dset_mono _ _ _ _ hdid1) doc ok hmem

/-- C9 witness: the telemetry event for device 7 published at `T0`,
consumed with a failing type lookup, is persisted as a document that
contains both a `timestamp` and a `device_id`. -/
theorem c9_stored_events_witness :
    Py.dcontains
      [("event_type", .prim (.str "telemetry")),
       ("device_id", .prim (.int 7)),
       ("device_name", .prim (.str "dev")),
       ("timestamp", .prim (.str "T0")),
       ("temperature", .prim (.int 21)),
       ("device_type", .prim (.str "other"))] "timestamp" = true ∧
    Py.dcontains
      [("event_type", .prim (.str "telemetry")),
       ("device_id", .prim (.int 7)),
       ("device_name", .prim (.str "dev")),
       ("timestamp", .prim (.str "T0")),
       ("temperature", .prim (.int 21)),
       ("device_type", .prim (.str "other"))] "device_id" = true :=
  c9_stored_events_carry_timestamp_and_device_id.2.1
    7 "dev" [("temperature", .int 21)] "T0" "T1" [] .raised true true
    [("event_type", .prim (.str "telemetry")),
     ("device_id", .prim (.int 7)),
     ("device_name", .prim (.str "dev")),
     ("timestamp", .prim (.str "T0")),
     ("temperature", .prim (.int 21)),
     ("device_type", .prim (.str "other"))] true
    (by decide)

/-- C7: every events query through the public surface returns only
events matching the (truthy) device-id and type filters, ordered
most-recent-first by timestamp, with at most `limit` results; a limit
outside `[1, 1000]` is rejected by the controller's validation before
the DAO runs. -/
theorem c7_events_query_bounded_sorted_filtered :
    (∀ (store : List EventDoc) (device_id : Option Int)
       (event_type : Option String) (limit : Int) (res : List EventDoc),
       get_events store device_id event_type limit = .ok res →
       res.length ≤ limit.toNat ∧
       List.Sorted (fun a b : EventDoc => b.timestamp ≤ a.timestamp) res ∧
       (∀ n, device_id = some n → n ≠ 0 → ∀ d ∈ res, d.device_id = n) ∧
       (∀ t, event_type = some t → t ≠ "" →
          ∀ d ∈ res, d.event_type = some t)) ∧
    (∀ (store : List EventDoc) (device_id : Option Int)
       (event_type : Option String) (limit : Int),
       ¬(1 ≤ limit ∧ limit ≤ 1000) →
       get_events store device_id event_type limit =
         .error "validation error: limit out of range") := by
  constructor
  · intro store did et limit res hok
    unfold get_events at hok
    by_cases hv : 1 ≤ limit ∧ limit ≤ 1000
    · simp [hv] at hok
      subst hok
      refine ⟨?_, ?_, ?_, ?_⟩
      · exact List.length_take_le _ _
      · exact List.Pairwise.sublist (List.take_sublist _ _)
          (List.sorted_insertionSort _ _)
      · intro n hn h0 d hd
        subst hn
        have hd1 : d ∈ store.filter
            (EventsDAO.docMatches (EventsDAO.buildQuery (some n) et)) :=
          (List.perm_insertionSort _ _).subset
            ((List.take_sublist _ _).subset hd)
        have hm := (List.mem_filter.mp hd1).2
        simp [EventsDAO.buildQuery, EventsDAO.docMatches, pyTruthyInt, h0]
          at hm
        exact hm.1
      · intro t ht h0 d hd
        subst ht
        have hd1 : d ∈ store.filter
            (EventsDAO.docMatches (EventsDAO.buildQuery did (some t))) :=
          (List.perm_insertionSort _ _).subset
            ((List.take_sublist _ _).subset hd)
        have hm := (List.mem_filter.mp hd1).2
        simp [EventsDAO.buildQuery, EventsDAO.docMatches, pyTruthyStr, h0]
          at hm
        exact hm.2
    · simp [hv] at hok
  · intro store did et limit hv
    unfold get_events
    rw [if_neg hv]

/-- C7 witness: on a three-event store, the query for device 1 with
limit 10 returns the two matching events newest-first; a limit of 0 is
rejected at the validation surface. -/
theorem c7_events_query_witness :
    (([⟨1, some "stop", 7⟩, ⟨1, some "boot", 5⟩] :
        List EventDoc).length ≤ (10 : Int).toNat ∧
     List.Sorted (fun a b : EventDoc => b.timestamp ≤ a.timestamp)
       ([⟨1, some "stop", 7⟩, ⟨1, some "boot", 5⟩] : List EventDoc)) ∧
    get_events [⟨1, some "boot", 5⟩, ⟨2, some "boot", 9⟩, ⟨1, some "stop", 7⟩]
      (some 1) Option.none 0 =
      .error "validation error: limit out of range" := by
  refine ⟨⟨?_, ?_⟩, ?_⟩
  · exact (c7_events_query_bounded_sorted_filtered.1
      [⟨1, some "boot", 5⟩, ⟨2, some "boot", 9⟩, ⟨1, some "stop", 7⟩]
      (some 1) Option.none 10 _ rfl).1
  · exact (c7_events_query_bounded_sorted_filtered.1
      [⟨1, some "boot", 5⟩, ⟨2, some "boot", 9⟩, ⟨1, some "stop", 7⟩]
      (some 1) Option.none 10 _ rfl).2.1
  · exact c7_events_query_bounded_sorted_filtered.2
      [⟨1, some "boot", 5⟩, ⟨2, some "boot", 9⟩, ⟨1, some "stop", 7⟩]
      (some 1) Option.none 0 (by decide)

/-- C8: no Read Cache operation propagates a cache error to its caller:
with the Redis backend down (failed lazy connect) `get` returns `None`
and `set` / `delete` / `delete_pattern` return `False` / `False` / `0`,
and the same fallbacks apply to an error from any individual Redis
operation or from serialization. -/
theorem c8_cache_errors_nonfatal :
    ∀ (w : CacheService.World) (s : CacheService.CState),
      (w.connectOk = false → s = false →
        CacheService.get w s = (Option.none, true) ∧
        (CacheService.set w s).1 = false ∧
        (CacheService.delete w s).1 = false ∧
        (CacheService.delete_pattern w s).1 = 0) ∧
      (∀ e, w.getResult = .error e →
        (CacheService.get w s).1 = Option.none) ∧
      (∀ e, w.setexResult = .error e → (CacheService.set w s).1 = false) ∧
      (w.serializeOk = false → (CacheService.set w s).1 = false) ∧
      (∀ e, w.deleteResult = .error e →
        (CacheService.delete w s).1 = false) ∧
      (∀ e, w.keysResult = .error e →
        (CacheService.delete_pattern w s).1 = 0) := by
  intro w s
  obtain ⟨co, gr, sr, so, dr, kr⟩ := w
  refine ⟨?_, ?_, ?_, ?_, ?_, ?_⟩
  · rintro rfl rfl
    cases so <;>
      simp [CacheService.get, CacheService.set, CacheService.delete,
        CacheService.delete_pattern, CacheService.clientProp]
  · rintro e rfl
    cases s <;> cases co <;>
      simp [CacheService.get, CacheService.clientProp]
  · rintro e rfl
    cases s <;> cases co <;> cases so <;>
      simp [CacheService.set, CacheService.clientProp]
  · rintro rfl
    simp [CacheService.set]
  · rintro e rfl
    cases s <;> cases co <;>
      simp [CacheService.delete, CacheService.clientProp]
  · rintro e rfl
    cases s <;> cases co <;>
      simp [CacheService.delete_pattern, CacheService.clientProp]

/-- C8 witness: with the Redis backend entirely unavailable (lazy
connect fails, every operation raises `ConnectionError`), `get` is a
miss and the writes report `False` / `0`. -/
theorem c8_cache_errors_witness :
    CacheService.get
      ⟨false, .error .connectionErr, .error .connectionErr, true,
       .error .connectionErr, .error .connectionErr⟩ false =
      (Option.none, true) ∧
    (CacheService.set
      ⟨false, .error .connectionErr, .error .connectionErr, true,
       .error .connectionErr, .error .connectionErr⟩ false).1 = false ∧
    (CacheService.delete
      ⟨false, .error .connectionErr, .error .connectionErr, true,
       .error .connectionErr, .error .connectionErr⟩ false).1 = false ∧
    (CacheService.delete_pattern
      ⟨false, .error .connectionErr, .error .connectionErr, true,
       .error .connectionErr, .error .connectionErr⟩ false).1 = 0 :=
  (c8_cache_errors_nonfatal
    ⟨false, .error .connectionErr, .error .connectionErr, true,
     .error .connectionErr, .error .connectionErr⟩ false).1 rfl rfl

/-- C10: a `device_id` filter of `0` and an empty-string
`event_type` / `device_type` filter are falsy in the `if device_id:` /
`if event_type:` guards, so `get_all` silently omits them and returns
the same result as passing no filter at all — not the events of device
0 (or of the empty type). -/
theorem c10_falsy_filters_are_dropped :
    ∀ (estore : List EventDoc) (tstore : List TelemetryDoc)
      (device_id : Option Int) (event_type device_type : Option String)
      (limit : Nat),
      EventsDAO.get_all estore (some 0) event_type limit =
        EventsDAO.get_all estore Option.none event_type limit ∧
      EventsDAO.get_all estore device_id (some "") limit =
        EventsDAO.get_all estore device_id Option.none limit ∧
      TelemetryDAO.get_all tstore (some 0) device_type limit =
        TelemetryDAO.get_all tstore Option.none device_type limit ∧
      TelemetryDAO.get_all tstore device_id (some "") limit =
        TelemetryDAO.get_all tstore device_id Option.none limit := by
  intro estore tstore did et dt limit
  refine ⟨?_, ?_, ?_, ?_⟩ <;>
    simp [EventsDAO.get_all, TelemetryDAO.get_all, EventsDAO.buildQuery,
      TelemetryDAO.buildQuery, pyTruthyInt, pyTruthyStr]
